import Mathlib

/-!
Verification of the MCP-Gateway core (`rest_to_mcp` package): a shallow
embedding, in Lean, of the endpoint-descriptor validation engine
(`endpoints.py`), the execution-context state machine (`models.py`), the
gateway dispatcher (`adapter.py`) and the failure taxonomy (`errors.py`),
together with theorems settling the behavioural claims made about them.

Conventions of the embedding:
* Python `dict[str, Any]` values are modelled as insertion-ordered
  association lists `List (String × Value)`; lookup returns the first
  (in a real dict: the only) entry for a key.
* JSON-ish runtime values are modelled by the inductive type `Value`.
* Raised exceptions become `Except GatewayExc`; the constructors of
  `GatewayExc` mirror the exception classes of `errors.py` / `models.py`.
* The HTTP client (`httpx`) is an external collaborator; the outcome of
  the single outbound call a dispatch can make is supplied as a
  `TransportOutcome` oracle argument.
-/

mutual

/-- JSON-like runtime values (the subset of Python values crossing the
gateway boundary: strings, ints, bools, None, lists, dicts). `VList` and
`VFields` are inlined list types so that functions over values compile
by mutual structural recursion (which the kernel can evaluate). -/
inductive Value where
  | vNull
  | vBool (b : Bool)
  | vInt (n : Int)
  | vStr (s : String)
  | vList (xs : VList)
  | vDict (fields : VFields)

/-- A list of values (the payload of `Value.vList`). -/
inductive VList where
  | nil
  | cons (v : Value) (rest : VList)

/-- The ordered fields of a dict value (the payload of `Value.vDict`). -/
inductive VFields where
  | nil
  | cons (k : String) (v : Value) (rest : VFields)

end

/-- Build the fields of a dict value from an association list. -/
def mkVFields : List (String × Value) → VFields
  | [] => .nil
  | (k, v) :: rest => .cons k v (mkVFields rest)

/-- Dict-field payload back to an association list. -/
def VFields.toList : VFields → List (String × Value)
  | .nil => []
  | .cons k v rest => (k, v) :: rest.toList

/-- Build a list value payload from a list of values. -/
def mkVList : List Value → VList
  | [] => .nil
  | v :: rest => .cons v (mkVList rest)

/-- A dict `Value` from an association list. -/
def mkDict (fields : List (String × Value)) : Value :=
  .vDict (mkVFields fields)

/-- A JSON-RPC request id: `id: int | str` (models.py `JsonRpcRequest.id`). -/
inductive RequestId where
  | num (n : Int)
  | str (s : String)
deriving DecidableEq, Repr

/-- Python `str.strip()` on the character list of a string (whitespace
trimmed from both ends). -/
def pyStrip (s : String) : String :=
  ⟨((s.data.dropWhile Char.isWhitespace).reverse.dropWhile Char.isWhitespace).reverse⟩

/-- Single-quote a string, as Python `repr` does for `str` values.
(The quote character is written with an escape to keep source plain.) -/
def pyQuote (s : String) : String :=
  "\x27" ++ s ++ "\x27"

mutual

/-- Python `str(value)` for the modelled values. -/
def pyStr : Value → String
  | .vNull => "None"
  | .vBool b => if b then "True" else "False"
  | .vInt n => toString n
  | .vStr s => s
  | .vList xs => "[" ++ String.intercalate ", " (pyStrList xs) ++ "]"
  | .vDict fs => "\x7b" ++ String.intercalate ", " (pyStrFields fs) ++ "\x7d"

/-- `repr` of each element of a list value (Python renders list elements
with `repr`, not `str`). -/
def pyStrList : VList → List String
  | .nil => []
  | .cons v vs => pyRepr v :: pyStrList vs

/-- `repr` of each field of a dict value. -/
def pyStrFields : VFields → List String
  | .nil => []
  | .cons k v fs => (pyQuote k ++ ": " ++ pyRepr v) :: pyStrFields fs

/-- Python `repr(value)` for the modelled values. -/
def pyRepr : Value → String
  | .vStr s => pyQuote s
  | .vNull => "None"
  | .vBool b => if b then "True" else "False"
  | .vInt n => toString n
  | .vList xs => "[" ++ String.intercalate ", " (pyStrList xs) ++ "]"
  | .vDict fs => "\x7b" ++ String.intercalate ", " (pyStrFields fs) ++ "\x7d"

end

/-- Digits of a decimal numeral to a natural number; `none` when the
character list is empty or holds a non-digit. -/
def decDigits? : List Char → Option Nat
  | [] => none
  | cs => cs.foldl
      (fun acc c => match acc with
        | none => none
        | some n => if c.isDigit then some (n * 10 + (c.toNat - 48)) else none)
      (some 0)

/-- Python `int(s)` on a string: surrounding whitespace is ignored, an
optional single sign is allowed, then at least one decimal digit;
anything else raises `ValueError` (here: `none`). Numeric-literal
underscores accepted by CPython are not modelled. -/
def pyIntOfString (s : String) : Option Int :=
  match (pyStrip s).data with
  | [] => none
  | c :: rest =>
    if c == '-' then (decDigits? rest).map (fun n => -(n : Int))
    else if c == '+' then (decDigits? rest).map (fun n => (n : Int))
    else (decDigits? (c :: rest)).map (fun n => (n : Int))

/-- Python `int(value)`: identity on ints, `bool` is an int subtype,
string parsing per `pyIntOfString`; `None`, lists and dicts raise
`TypeError` (here: `none`). -/
def pyInt : Value → Option Int
  | .vInt n => some n
  | .vBool b => some (if b then 1 else 0)
  | .vStr s => pyIntOfString s
  | _ => none

/-- First binding of a key in an association list (dict lookup). -/
def dictGet (d : List (String × Value)) (k : String) : Option Value :=
  match d.find? (fun kv => kv.1 == k) with
  | some kv => some kv.2
  | none => none

/-- The keys of a dict, in insertion order. -/
def dictKeys (d : List (String × Value)) : List String :=
  d.map Prod.fst

/-- `d[k] = v` on an insertion-ordered dict: an existing key keeps its
position and gets the new value, a new key is appended. -/
def dictInsert (d : List (String × Value)) (k : String) (v : Value) :
    List (String × Value) :=
  if d.any (fun kv => kv.1 == k) then
    d.map (fun kv => if kv.1 == k then (k, v) else kv)
  else d ++ [(k, v)]

/-- HTTP methods supported by the adapter (endpoints.py `HttpMethod`). -/
inductive HttpMethod where
  | GET
  | POST
  | PUT
  | DELETE
  | PATCH
deriving DecidableEq, Repr

/-- Whether a verb mutates state: the `(POST, PUT, PATCH)` membership
tests of endpoints.py. -/
def HttpMethod.isMutating : HttpMethod → Bool
  | .POST => true
  | .PUT => true
  | .PATCH => true
  | _ => false

/-- endpoints.py `RestEndpoint`. The optional `list[str] | None`
parameter fields are modelled as plain lists: every use in the source
goes through `... or []` or truthiness, under which `None` and `[]`
behave identically. -/
structure RestEndpoint where
  name : String
  path : String
  method : HttpMethod
  description : String
  path_params : List String := []
  query_params : List String := []
  body_params : List String := []
  base_url : Option String := none
deriving DecidableEq, Repr

/-- endpoints.py `RestEndpoint.validate_arguments` (lines 51-98):
unknown arguments rejected first (in argument order), then each declared
path parameter checked for presence and a non-empty stripped string
value, then — for mutating verbs — each declared body parameter checked
for presence. The three groups are concatenated, mirroring the three
sequential append loops of the source; nothing short-circuits. -/
def RestEndpoint.validate_arguments (e : RestEndpoint)
    (arguments : List (String × Value)) : List String :=
  let known := e.path_params ++ e.query_params ++ e.body_params
  let unknownErrors := (dictKeys arguments).filterMap (fun arg =>
    if arg ∈ known then none
    else some ("Unknown argument " ++ pyQuote arg ++ " - tool " ++ pyQuote e.name ++
      " does not accept this parameter"))
  let pathErrors := e.path_params.filterMap (fun param =>
    match dictGet arguments param with
    | none => some ("Missing required path parameter: " ++ pyQuote param)
    | some value =>
      if pyStrip (pyStr value) == "" then
        some ("Path parameter " ++ pyQuote param ++ " cannot be empty")
      else none)
  let bodyErrors :=
    if e.method.isMutating then
      e.body_params.filterMap (fun param =>
        match dictGet arguments param with
        | none => some ("Missing required body parameter: " ++ pyQuote param)
        | some _ => none)
    else []
  unknownErrors ++ pathErrors ++ bodyErrors

/-- The validity condition stated by the spec for `validate_arguments`
(spec §4.1, written from the spec text, for comparison with the code):
every supplied key is declared, every path parameter is present with a
non-empty trimmed string conversion, and on mutating verbs every
declared body parameter is present. -/
def argumentsValidSpec (e : RestEndpoint)
    (arguments : List (String × Value)) : Prop :=
  (∀ k ∈ dictKeys arguments,
      k ∈ e.path_params ++ e.query_params ++ e.body_params) ∧
  (∀ p ∈ e.path_params,
      ∃ v, dictGet arguments p = some v ∧ pyStrip (pyStr v) ≠ "") ∧
  (e.method.isMutating = true →
      ∀ p ∈ e.body_params, ∃ v, dictGet arguments p = some v)


/-- config.py `HTTP_ERROR_THRESHOLD` (line 30). The source sets it to
200, so every completed response with status 200 or above is marked as
an error by the executor. -/
def HTTP_ERROR_THRESHOLD : Nat := 200

/-- config.py `HTTP_TIMEOUT_SECONDS = 30.0`, an integral float; modelled
as the natural number 30, rendered "30.0" in messages. -/
def HTTP_TIMEOUT_SECONDS : Nat := 30

/-- config.py `JSONPLACEHOLDER_BASE_URL` (default, environment override
not modelled). -/
def JSONPLACEHOLDER_BASE_URL : String := "https://jsonplaceholder.typicode.com"

/-- config.py `OPEN_METEO_BASE_URL` (default). -/
def OPEN_METEO_BASE_URL : String := "https://api.open-meteo.com"

/-- config.py server identity constants. -/
def SERVER_NAME : String := "rest-to-mcp-adapter"

/-- config.py `SERVER_VERSION`. -/
def SERVER_VERSION : String := "0.2.0"

/-- config.py `MCP_PROTOCOL_VERSION`. -/
def MCP_PROTOCOL_VERSION : String := "2024-11-05"

/-- models.py `ToolInputSchema`: `type` is the literal "object". -/
structure ToolInputSchema where
  properties : List (String × Value)
  required : List String

/-- models.py `Tool`. -/
structure Tool where
  name : String
  description : String
  inputSchema : ToolInputSchema

/-- endpoints.py `RestEndpoint.to_mcp_tool` (lines 100-138): path
params become required string properties, query params optional string
properties, body params string properties required only on mutating
verbs; properties are inserted path-then-query-then-body. -/
def RestEndpoint.to_mcp_tool (e : RestEndpoint) : Tool :=
  let pathProps := e.path_params.map (fun p =>
    (p, mkDict [("type", .vStr "string"),
                ("description", .vStr ("Path parameter: " ++ p))]))
  let queryProps := e.query_params.map (fun p =>
    (p, mkDict [("type", .vStr "string"),
                ("description", .vStr ("Query parameter: " ++ p))]))
  let bodyProps := e.body_params.map (fun p =>
    (p, mkDict [("type", .vStr "string"),
                ("description", .vStr ("Body field: " ++ p))]))
  let required :=
    e.path_params ++ (if e.method.isMutating then e.body_params else [])
  { name := e.name
    description := e.description
    inputSchema :=
      { properties := pathProps ++ queryProps ++ bodyProps
        required := required } }

/-- `ToolInputSchema.model_dump()` as a `Value`. -/
def ToolInputSchema.toValue (s : ToolInputSchema) : Value :=
  mkDict [("type", .vStr "object"),
          ("properties", mkDict s.properties),
          ("required", .vList (mkVList (s.required.map Value.vStr)))]

/-- `Tool.model_dump()` as a `Value`. -/
def Tool.toValue (t : Tool) : Value :=
  mkDict [("name", .vStr t.name),
          ("description", .vStr t.description),
          ("inputSchema", t.inputSchema.toValue)]

/-- endpoints.py `JSONPLACEHOLDER_ENDPOINTS` entry `get_posts`. -/
def ep_get_posts : RestEndpoint :=
  { name := "get_posts", path := "/posts", method := .GET,
    description := "Get all posts. Optionally filter by userId.",
    query_params := ["userId"] }

/-- Catalog entry `get_post`. -/
def ep_get_post : RestEndpoint :=
  { name := "get_post", path := "/posts/\x7bid\x7d", method := .GET,
    description := "Get a specific post by ID.", path_params := ["id"] }

/-- Catalog entry `create_post`. -/
def ep_create_post : RestEndpoint :=
  { name := "create_post", path := "/posts", method := .POST,
    description := "Create a new post with title, body, and userId.",
    body_params := ["title", "body", "userId"] }

/-- Catalog entry `update_post`. -/
def ep_update_post : RestEndpoint :=
  { name := "update_post", path := "/posts/\x7bid\x7d", method := .PUT,
    description := "Update an existing post.",
    path_params := ["id"], body_params := ["title", "body", "userId"] }

/-- Catalog entry `delete_post`. -/
def ep_delete_post : RestEndpoint :=
  { name := "delete_post", path := "/posts/\x7bid\x7d", method := .DELETE,
    description := "Delete a post by ID.", path_params := ["id"] }

/-- Catalog entry `get_comments`. -/
def ep_get_comments : RestEndpoint :=
  { name := "get_comments", path := "/posts/\x7bpostId\x7d/comments",
    method := .GET, description := "Get all comments for a specific post.",
    path_params := ["postId"] }

/-- Catalog entry `get_users`. -/
def ep_get_users : RestEndpoint :=
  { name := "get_users", path := "/users", method := .GET,
    description := "Get all users." }

/-- Catalog entry `get_user`. -/
def ep_get_user : RestEndpoint :=
  { name := "get_user", path := "/users/\x7bid\x7d", method := .GET,
    description := "Get a specific user by ID.", path_params := ["id"] }

/-- endpoints.py `JSONPLACEHOLDER_ENDPOINTS` (lines 150-207). -/
def JSONPLACEHOLDER_ENDPOINTS : List RestEndpoint :=
  [ep_get_posts, ep_get_post, ep_create_post, ep_update_post,
   ep_delete_post, ep_get_comments, ep_get_users, ep_get_user]

/-- The gateway failure taxonomy of errors.py, together with the two
exception classes of models.py that subclass it, as a closed exception
type. `toolTimeout` is models.py `ToolTimeoutError`, a `TransportFailure`
carrying the tool name and the timeout; `contextError` is models.py
`ContextError`, a `ContractViolation`.

`gatewayInternal` models `GatewayInternalFailure`, which adapter.py
imports from `rest_to_mcp.errors` but which is absent from the
repository's `errors.py`. Modelled from the spec: §4.2 states that an
exception not already one of the four taxonomy kinds "must be wrapped as
`ConfigurationError`/`ContractViolation` before leaving the boundary",
so the wrapper class is modelled as a `ConfigurationError` subtype (its
`failure_category` below is `configuration_error`).

`otherExc` stands for an arbitrary raw (non-`GatewayFailure`) Python
exception. -/
inductive GatewayExc where
  | contractViolation (msg : String)
  | contextError (msg : String)
  | upstreamFailure (msg : String)
  | transportFailure (msg : String)
  | toolTimeout (tool : String) (timeout_seconds : Nat)
  | configurationError (msg : String)
  | gatewayInternal (msg : String)
  | otherExc (msg : String)
deriving DecidableEq, Repr


/-- Whether the exception is a `GatewayFailure` instance (everything in
the taxonomy is; a raw exception is not). Mirrors the
`except GatewayFailure` test at adapter.py line 307. -/
def GatewayExc.isGatewayFailure : GatewayExc → Bool
  | .otherExc _ => false
  | _ => true

/-- The `failure_category` class attribute of errors.py, per concrete
class; `none` for a raw exception. -/
def GatewayExc.failureCategory : GatewayExc → Option String
  | .contractViolation _ => some "contract_violation"
  | .contextError _ => some "contract_violation"
  | .upstreamFailure _ => some "upstream_failure"
  | .transportFailure _ => some "transport_failure"
  | .toolTimeout _ _ => some "transport_failure"
  | .configurationError _ => some "configuration_error"
  | .gatewayInternal _ => some "configuration_error"
  | .otherExc _ => none

/-- The message a `str(e)` of the exception would produce (only the
cases the theorems mention are rendered faithfully). -/
def GatewayExc.message : GatewayExc → String
  | .contractViolation m => m
  | .contextError m => m
  | .upstreamFailure m => m
  | .transportFailure m => m
  | .toolTimeout tool secs =>
      "Tool " ++ pyQuote tool ++ " timed out after " ++ toString secs ++
      ".0s. The external service did not respond in time."
  | .configurationError m => m
  | .gatewayInternal m => m
  | .otherExc m => m

/-- Whether the exception belongs to one of the four taxonomy kinds of
errors.py (`ContractViolation` / `UpstreamFailure` / `TransportFailure`
/ `ConfigurationError`), counting subclasses. -/
def GatewayExc.isTaxonomyKind (e : GatewayExc) : Bool :=
  match e.failureCategory with
  | some c => (c == "contract_violation") || (c == "upstream_failure") ||
      (c == "transport_failure") || (c == "configuration_error")
  | none => false

/-- models.py content blocks (`TextContent` / `ImageContent`). The
adapter only ever constructs text blocks. -/
inductive ContentBlock where
  | text (t : String)
  | image (data : String) (mimeType : String)
deriving DecidableEq, Repr

/-- models.py `ToolCallResult`. -/
structure ToolCallResult where
  content : List ContentBlock
  isError : Bool
deriving DecidableEq, Repr

/-- `ContentBlock.model_dump()` as a `Value`. -/
def ContentBlock.toValue : ContentBlock → Value
  | .text t => mkDict [("type", .vStr "text"), ("text", .vStr t)]
  | .image d m => mkDict [("type", .vStr "image"), ("data", .vStr d),
      ("mimeType", .vStr m)]

/-- `ToolCallResult.model_dump()` as a `Value`. -/
def ToolCallResult.toValue (r : ToolCallResult) : Value :=
  mkDict [("content", .vList (mkVList (r.content.map ContentBlock.toValue))),
          ("isError", .vBool r.isError)]

/-- models.py `JsonRpcRequest`: `jsonrpc` is the fixed literal "2.0" and
is not modelled; `id` is `int | str`, `params` an optional dict. -/
structure JsonRpcRequest where
  id : RequestId
  method : String
  params : Option (List (String × Value)) := none

/-- The outbound envelope: models.py `JsonRpcResponse` (success) or
`JsonRpcErrorResponse` (error, with `JsonRpcErrorData` inlined). Exactly
one of the two per returned response, by construction of the sum. -/
inductive Envelope where
  | success (id : RequestId) (result : Value)
  | error (id : RequestId) (code : Int) (message : String) (data : Option Value)

/-- models.py `ErrorCode.METHOD_NOT_FOUND`. -/
def METHOD_NOT_FOUND : Int := -32601

/-- models.py `ErrorCode.INVALID_PARAMS`. -/
def INVALID_PARAMS : Int := -32602

/-- models.py `ErrorCode.INTERNAL_ERROR`. -/
def INTERNAL_ERROR : Int := -32603

/-- The code of an error envelope (`none` for a success envelope). -/
def Envelope.errorCode : Envelope → Option Int
  | .success _ _ => none
  | .error _ c _ _ => some c

/-- The message of an error envelope. -/
def Envelope.errorMessage : Envelope → Option String
  | .success _ _ => none
  | .error _ _ m _ => some m

/-- Whether the envelope is a success envelope. -/
def Envelope.isSuccess : Envelope → Bool
  | .success _ _ => true
  | .error _ _ _ _ => false

/-- models.py `InitializeResult().model_dump()`. -/
def initializeResultValue : Value :=
  mkDict [("protocolVersion", .vStr MCP_PROTOCOL_VERSION),
          ("serverInfo", mkDict [("name", .vStr SERVER_NAME),
                                 ("version", .vStr SERVER_VERSION)]),
          ("capabilities", mkDict [("tools", mkDict [])])]

/-- models.py `ExecutionContext` (lines 286-549): identity, optional
bound tool, argument snapshot, accumulated results, sealed flag. The
`created_at` timestamp is threaded as an opaque natural number (the
clock is not modelled). Constructed only through `from_request`. -/
structure ExecutionContext where
  request_id : RequestId
  method : String
  tool_name : Option String := none
  arguments : List (String × Value) := []
  results : List ToolCallResult := []
  created_at : Nat := 0
  sealed : Bool := false

/-- models.py `ExecutionContext.from_request` (lines 353-371): the only
creation path; rejects a blank string id and a blank method with
`ContextError`. (`request.id is None` cannot arise: the field's type is
`int | str`.) -/
def ExecutionContext.from_request (request : JsonRpcRequest) :
    Except GatewayExc ExecutionContext :=
  match request.id with
  | .str s =>
    if pyStrip s == "" then
      .error (.contextError "Cannot create context: request.id is empty string")
    else if pyStrip request.method == "" then
      .error (.contextError "Cannot create context: request.method is empty")
    else
      .ok { request_id := request.id, method := request.method }
  | .num _ =>
    if pyStrip request.method == "" then
      .error (.contextError "Cannot create context: request.method is empty")
    else
      .ok { request_id := request.id, method := request.method }

/-- models.py `ExecutionContext._check_not_sealed` (lines 497-503), as
the error value it raises when the context is sealed. -/
def ExecutionContext.sealedError (operation : String) : GatewayExc :=
  .contextError ("Cannot perform " ++ pyQuote operation ++
    ": context is sealed. Sealed contexts are immutable.")

/-- models.py `ExecutionContext.with_tool_call` (lines 410-445): rejects
a sealed context, an empty (blank) name, and rebinding; otherwise
returns a new unsealed context with the stripped name bound and the
argument map snapshotted. -/
def ExecutionContext.with_tool_call (c : ExecutionContext) (name : String)
    (arguments : List (String × Value)) : Except GatewayExc ExecutionContext :=
  if c.sealed then .error (sealedError "with_tool_call")
  else if pyStrip name == "" then
    .error (.contextError "Cannot bind tool call: name is empty")
  else
    match c.tool_name with
    | some bound =>
      .error (.contextError ("Cannot rebind tool call: already bound to " ++
        pyQuote bound ++ ". Tool identity is immutable once set."))
    | none =>
      .ok { request_id := c.request_id, method := c.method,
            tool_name := some (pyStrip name), arguments := arguments,
            results := c.results, created_at := c.created_at, sealed := false }

/-- models.py `ExecutionContext.with_result` (lines 447-481): rejects a
sealed context, a context with no bound tool, and a `None` result;
otherwise appends the result in a new unsealed context. -/
def ExecutionContext.with_result (c : ExecutionContext)
    (result : Option ToolCallResult) : Except GatewayExc ExecutionContext :=
  if c.sealed then .error (sealedError "with_result")
  else
    match c.tool_name with
    | none =>
      .error (.contextError ("Cannot add result: no tool_name set. " ++
        "Results require a tool call to be bound first."))
    | some _ =>
      match result with
      | none => .error (.contextError "Cannot add result: result is None")
      | some r =>
        .ok { request_id := c.request_id, method := c.method,
              tool_name := c.tool_name, arguments := c.arguments,
              results := c.results ++ [r], created_at := c.created_at,
              sealed := false }

/-- models.py `ExecutionContext.seal` (lines 487-495): flips the sealed
flag (in place in the source; here the updated value). -/
def ExecutionContext.seal (c : ExecutionContext) : ExecutionContext :=
  { c with sealed := true }

/-- models.py `ExecutionContext.discard_results` (lines 509-536):
rejects a sealed context, otherwise returns a new unsealed context with
the result sequence destroyed. -/
def ExecutionContext.discard_results (c : ExecutionContext) :
    Except GatewayExc ExecutionContext :=
  if c.sealed then .error (sealedError "discard_results")
  else
    .ok { request_id := c.request_id, method := c.method,
          tool_name := c.tool_name, arguments := c.arguments,
          results := [], created_at := c.created_at, sealed := false }

/-- Modelled from the spec: `ExecutionContext.with_reduced_results(n)`.
The method is exercised by tests/test_models.py but absent from the
repository's models.py. Spec §4.3: together with `discard_results` it
must "irreversibly shrink the accumulated-result sequence (to empty, or
to the `n` most recent)" and it "rejects if sealed". -/
def ExecutionContext.with_reduced_results (c : ExecutionContext) (n : Nat) :
    Except GatewayExc ExecutionContext :=
  if c.sealed then .error (sealedError "with_reduced_results")
  else
    .ok { request_id := c.request_id, method := c.method,
          tool_name := c.tool_name, arguments := c.arguments,
          results := c.results.drop (c.results.length - n),
          created_at := c.created_at, sealed := false }

/-- Modelled from the spec: `ExecutionContext.result_count()`, exercised
by tests/test_models.py but absent from the repository's models.py; per
spec §8 it counts the accumulated results. -/
def ExecutionContext.result_count (c : ExecutionContext) : Nat :=
  c.results.length

/-- `p` is a prefix of `s` (character lists). -/
def startsWithChars : List Char → List Char → Bool
  | _, [] => true
  | [], _ :: _ => false
  | c :: cs, p :: ps => c == p && startsWithChars cs ps

/-- Replace every non-overlapping occurrence of a non-empty pattern,
left to right (Python `str.replace`), on character lists with explicit
fuel (each step consumes at least one character, so `s.length` fuel
suffices). -/
def replaceChars : Nat → List Char → List Char → List Char → List Char
  | 0, s, _, _ => s
  | _ + 1, [], _, _ => []
  | fuel + 1, c :: rest, pat, rep =>
    if pat ≠ [] && startsWithChars (c :: rest) pat then
      rep ++ replaceChars fuel ((c :: rest).drop pat.length) pat rep
    else c :: replaceChars fuel rest pat rep

/-- Python `s.replace(pat, rep)` for a non-empty pattern. -/
def pyReplace (s pat rep : String) : String :=
  ⟨replaceChars s.data.length s.data pat.data rep.data⟩

/-- `pat` occurs as a substring at some position of the character list. -/
def hasSub (pat : List Char) : List Char → Bool
  | [] => startsWithChars [] pat
  | c :: cs => startsWithChars (c :: cs) pat || hasSub pat cs

/-- `pat` occurs as a substring of `s` (used to state "the message
mentions ..."). -/
def containsSub (s pat : String) : Bool :=
  hasSub pat.data s.data

/-- models.py `ToolCallParams`: tool name and argument map. -/
structure ToolCallParams where
  name : String
  arguments : List (String × Value) := []

/-- Pydantic validation of `ToolCallParams(**request.params)`
(adapter.py line 334): `name` must be present and a string, `arguments`
defaults to an empty dict and must be a dict when present; extra keys
are ignored; a failure becomes the `PydanticValidationError` text
(abstracted). -/
def parseToolCallParams (p : List (String × Value)) :
    Except String ToolCallParams :=
  match dictGet p "name" with
  | none => .error "name: Field required"
  | some (.vStr n) =>
    match dictGet p "arguments" with
    | none => .ok { name := n }
    | some (.vDict d) => .ok { name := n, arguments := d.toList }
    | some _ => .error "arguments: Input should be a valid dictionary"
  | some _ => .error "name: Input should be a valid string"

/-- adapter.py `RestToMcpAdapter` state: the configured base URL (with
its trailing slash stripped at construction) and the endpoint registry,
a name-keyed insertion-ordered dict. The lazily created HTTP client is
the external collaborator and is not part of the state. -/
structure RestToMcpAdapter where
  base_url : String
  endpoints : List (String × RestEndpoint)
deriving DecidableEq, Repr

/-- adapter.py `RestToMcpAdapter.register_endpoint` (lines 93-95): a
public method that writes `self.endpoints[endpoint.name] = endpoint`. -/
def RestToMcpAdapter.register_endpoint (a : RestToMcpAdapter)
    (endpoint : RestEndpoint) : RestToMcpAdapter :=
  { a with endpoints :=
      (a.endpoints.map (fun kv =>
          if kv.1 == endpoint.name then (endpoint.name, endpoint) else kv)) ++
      (if a.endpoints.any (fun kv => kv.1 == endpoint.name) then []
       else [(endpoint.name, endpoint)]) }

/-- Strip trailing `/` characters from a URL (`str.rstrip("/")`). -/
def rstripSlash (s : String) : String :=
  ⟨(s.data.reverse.dropWhile (fun c => c == '/')).reverse⟩

/-- adapter.py `RestToMcpAdapter.__init__` (lines 85-91): strips the
base URL and registers each supplied endpoint in order. -/
def mkAdapter (base_url : String) (endpoints : List RestEndpoint) :
    RestToMcpAdapter :=
  endpoints.foldl RestToMcpAdapter.register_endpoint
    { base_url := rstripSlash base_url, endpoints := [] }

/-- Registry lookup: `self.endpoints[name]` / `name in self.endpoints`. -/
def RestToMcpAdapter.lookup (a : RestToMcpAdapter) (name : String) :
    Option RestEndpoint :=
  match a.endpoints.find? (fun kv => kv.1 == name) with
  | some kv => some kv.2
  | none => none

/-- adapter.py `RestToMcpAdapter._list_tools` (lines 113-115): each
registered endpoint as an MCP tool, in registry order. -/
def RestToMcpAdapter.list_tools (a : RestToMcpAdapter) : List Tool :=
  a.endpoints.map (fun kv => kv.2.to_mcp_tool)

/-- `ListToolsResult(tools=...).model_dump()` as a `Value`. -/
def listToolsValue (a : RestToMcpAdapter) : Value :=
  mkDict [("tools", .vList (mkVList (a.list_tools.map Tool.toValue)))]

/-- adapter.py `RestToMcpAdapter._build_url` (lines 179-198): missing
path parameters raise `ContractViolation` before any substitution
(when `path_params` is empty the missing list is empty and the check is
a no-op, matching the source's truthiness guard); then each placeholder
is substituted with the argument's string conversion; an endpoint
`base_url` override is prepended when present. -/
def RestToMcpAdapter.build_url (_a : RestToMcpAdapter) (endpoint : RestEndpoint)
    (arguments : List (String × Value)) : Except GatewayExc String :=
  let missing := endpoint.path_params.filter
    (fun p => !(dictGet arguments p).isSome)
  if missing ≠ [] then
    .error (.contractViolation
      ("Cannot build URL: missing required path parameter(s): [" ++
       String.intercalate ", " (missing.map pyQuote) ++ "]"))
  else
    let path := endpoint.path_params.foldl (fun path p =>
      pyReplace path ("\x7b" ++ p ++ "\x7d")
        (pyStr ((dictGet arguments p).getD .vNull))) endpoint.path
    match endpoint.base_url with
    | some b => .ok (rstripSlash b ++ path)
    | none => .ok path

/-- adapter.py `RestToMcpAdapter._build_query_params` (lines 200-208):
the declared query parameters that are present, in declaration order. -/
def RestToMcpAdapter.build_query_params (endpoint : RestEndpoint)
    (arguments : List (String × Value)) : List (String × Value) :=
  endpoint.query_params.filterMap (fun p =>
    match dictGet arguments p with
    | some v => some (p, v)
    | none => none)

/-- adapter.py `RestToMcpAdapter._build_body` (lines 210-232): `None`
body when no body parameters are declared; otherwise any missing
declared body parameter raises `ContractViolation`, else the body holds
exactly the declared parameters. -/
def RestToMcpAdapter.build_body (endpoint : RestEndpoint)
    (arguments : List (String × Value)) :
    Except GatewayExc (Option (List (String × Value))) :=
  if endpoint.body_params = [] then .ok none
  else
    let missing := endpoint.body_params.filter
      (fun p => !(dictGet arguments p).isSome)
    if missing ≠ [] then
      .error (.contractViolation
        ("Cannot build request body: missing body parameter(s): [" ++
         String.intercalate ", " (missing.map pyQuote) ++ "]"))
    else
      .ok (some (endpoint.body_params.map (fun p =>
        (p, (dictGet arguments p).getD .vNull))))

/-- The outcome of the single outbound HTTP call a dispatch can make
(the `httpx` collaborator): a completed response (status code and the
text that `_response_to_content` would extract from it — the JSON
re-serialization of adapter.py lines 234-250 is abstracted as the final
text), a timeout (`httpx.TimeoutException`), or another transport error
(`httpx.HTTPError`) with its message. -/
inductive TransportOutcome where
  | response (status : Nat) (text : String)
  | timeout
  | httpError (msg : String)

/-- adapter.py `RestToMcpAdapter._call_tool` (lines 117-177), the dumb
executor: unknown tool raises `ContractViolation`; URL and body are
built (either may raise `ContractViolation`); then the outcome of the
HTTP call decides: a completed response becomes a `ToolCallResult` with
`isError = (status >= HTTP_ERROR_THRESHOLD)`, a timeout raises
`ToolTimeoutError`, and any other transport error is folded into a
`ToolCallResult` marked errored. -/
def RestToMcpAdapter.call_tool (a : RestToMcpAdapter)
    (oracle : TransportOutcome) (name : String)
    (arguments : List (String × Value)) : Except GatewayExc ToolCallResult :=
  match a.lookup name with
  | none => .error (.contractViolation ("Unknown tool: " ++ name))
  | some endpoint =>
    match a.build_url endpoint arguments with
    | .error e => .error e
    | .ok _url =>
      match RestToMcpAdapter.build_body endpoint arguments with
      | .error e => .error e
      | .ok _body =>
        match oracle with
        | .response status text =>
          .ok { content := [.text text],
                isError := decide (status ≥ HTTP_ERROR_THRESHOLD) }
        | .timeout => .error (.toolTimeout name HTTP_TIMEOUT_SECONDS)
        | .httpError msg =>
          .ok { content := [.text ("HTTP error: " ++ msg)], isError := true }

/-- adapter.py `RestToMcpAdapter._check_destructive_operation` (lines
408-432): for `delete_post` / `update_post`, the `id` argument
(defaulting to `""`) must parse as a positive integer; returns the
rejection message when blocked, `none` when allowed. -/
def RestToMcpAdapter.check_destructive_operation (name : String)
    (arguments : List (String × Value)) : Option String :=
  if name == "delete_post" || name == "update_post" then
    let idValue := (dictGet arguments "id").getD (.vStr "")
    match pyInt idValue with
    | some idInt =>
      if idInt ≤ 0 then
        some ("Destructive operation rejected: id=" ++ pyStr idValue ++
          " is not valid. Post IDs must be positive integers.")
      else none
    | none =>
      some ("Destructive operation rejected: id=" ++ pyRepr idValue ++
        " is not a valid integer.")
  else none

/-- adapter.py `RestToMcpAdapter._handle_tools_call` (lines 312-406):
the orchestration branch. Missing or malformed params, an unknown tool,
validation errors, and the destructive-operation guard each produce an
`INVALID_PARAMS` error envelope; a timeout from the executor produces an
`INTERNAL_ERROR` envelope with structured data; any other exception
(from `with_tool_call`, URL/body building, or `with_result`) propagates;
otherwise the result is appended to the context and returned in a
success envelope. -/
def RestToMcpAdapter.handle_tools_call (a : RestToMcpAdapter)
    (oracle : TransportOutcome) (request : JsonRpcRequest)
    (context : ExecutionContext) :
    Except GatewayExc (Envelope × ExecutionContext) :=
  match request.params with
  | none =>
    .ok (.error request.id INVALID_PARAMS "Missing params for tools/call" none,
         context)
  | some p =>
    match parseToolCallParams p with
    | .error emsg =>
      .ok (.error request.id INVALID_PARAMS ("Invalid params: " ++ emsg) none,
           context)
    | .ok params =>
      match context.with_tool_call params.name params.arguments with
      | .error e => .error e
      | .ok ctx =>
        match a.lookup params.name with
        | none =>
          .ok (.error request.id INVALID_PARAMS
                ("Unknown tool: " ++ params.name) none, ctx)
        | some endpoint =>
          match endpoint.validate_arguments params.arguments with
          | verr :: verrs =>
            .ok (.error request.id INVALID_PARAMS
                  ("Tool " ++ pyQuote params.name ++ " validation failed: " ++
                   String.intercalate "; " (verr :: verrs))
                  (some (mkDict [("tool", .vStr params.name),
                    ("errors", .vList (mkVList
                      ((verr :: verrs).map Value.vStr)))])), ctx)
          | [] =>
            match RestToMcpAdapter.check_destructive_operation params.name
                params.arguments with
            | some guardError =>
              .ok (.error request.id INVALID_PARAMS guardError
                    (some (mkDict [("tool", .vStr params.name)])), ctx)
            | none =>
              match a.call_tool oracle params.name params.arguments with
              | .error (.toolTimeout tool secs) =>
                .ok (.error request.id INTERNAL_ERROR
                      (GatewayExc.message (.toolTimeout tool secs))
                      (some (mkDict [("tool", .vStr tool),
                        ("timeout_seconds", .vInt (secs : Int)),
                        ("failure_mode", .vStr "timeout")])), ctx)
              | .error e => .error e
              | .ok callResult =>
                match ctx.with_result (some callResult) with
                | .error e => .error e
                | .ok ctx2 =>
                  .ok (.success request.id callResult.toValue, ctx2)

/-- The gateway boundary of adapter.py `handle_request` (lines 307-310):
a `GatewayFailure` is re-raised unchanged; any other exception is
wrapped as `GatewayInternalFailure` (see `GatewayExc.gatewayInternal`). -/
def gatewayBoundary {α : Type} (r : Except GatewayExc α) : Except GatewayExc α :=
  match r with
  | .ok v => .ok v
  | .error e =>
    if e.isGatewayFailure then .error e
    else .error (.gatewayInternal e.message)

/-- adapter.py `RestToMcpAdapter.handle_request` (lines 252-310) before
the boundary wrapping: create the context through the single factory,
route on the method name, seal the context before returning. -/
def RestToMcpAdapter.handle_request_inner (a : RestToMcpAdapter)
    (oracle : TransportOutcome) (request : JsonRpcRequest) :
    Except GatewayExc (Envelope × ExecutionContext) :=
  match ExecutionContext.from_request request with
  | .error e => .error e
  | .ok context =>
    if request.method == "initialize" then
      .ok (.success request.id initializeResultValue, context.seal)
    else if request.method == "tools/list" then
      .ok (.success request.id (listToolsValue a), context.seal)
    else if request.method == "tools/call" then
      match a.handle_tools_call oracle request context with
      | .error e => .error e
      | .ok (response, ctx) => .ok (response, ctx.seal)
    else
      .ok (.error request.id METHOD_NOT_FOUND
            ("Unknown method: " ++ request.method) none, context.seal)

/-- adapter.py `RestToMcpAdapter.handle_request`: the single entry
point, with the gateway boundary applied. -/
def RestToMcpAdapter.handle_request (a : RestToMcpAdapter)
    (oracle : TransportOutcome) (request : JsonRpcRequest) :
    Except GatewayExc (Envelope × ExecutionContext) :=
  gatewayBoundary (a.handle_request_inner oracle request)

/-- adapter.py `create_jsonplaceholder_adapter` (lines 440-445). -/
def create_jsonplaceholder_adapter : RestToMcpAdapter :=
  mkAdapter JSONPLACEHOLDER_BASE_URL JSONPLACEHOLDER_ENDPOINTS

/-- Auxiliary: the unknown-argument rejection of one key. -/
lemma validate_arguments_def (e : RestEndpoint) (args : List (String × Value)) :
    e.validate_arguments args =
      ((dictKeys args).filterMap (fun arg =>
        if arg ∈ e.path_params ++ e.query_params ++ e.body_params then none
        else some ("Unknown argument " ++ pyQuote arg ++ " - tool " ++
          pyQuote e.name ++ " does not accept this parameter"))) ++
      (e.path_params.filterMap (fun param =>
        match dictGet args param with
        | none => some ("Missing required path parameter: " ++ pyQuote param)
        | some value =>
          if pyStrip (pyStr value) == "" then
            some ("Path parameter " ++ pyQuote param ++ " cannot be empty")
          else none)) ++
      (if e.method.isMutating then
        e.body_params.filterMap (fun param =>
          match dictGet args param with
          | none => some ("Missing required body parameter: " ++ pyQuote param)
          | some _ => none)
        else []) := rfl

/-- `validate_arguments` returns the empty list exactly on argument maps
the spec calls valid. Shared helper for several claims. -/
lemma validate_arguments_nil_iff (e : RestEndpoint)
    (args : List (String × Value)) :
    e.validate_arguments args = [] ↔ argumentsValidSpec e args := by
  rw [validate_arguments_def]
  simp only [List.append_eq_nil, argumentsValidSpec, List.filterMap_eq_nil_iff]
  constructor
  · rintro ⟨⟨h1, h2⟩, h3⟩
    refine ⟨fun k hk => ?_, fun p hp => ?_, fun hmut p hp => ?_⟩
    · by_contra hk2
      have := h1 k hk
      rw [if_neg hk2] at this
      simp at this
    · have := h2 p hp
      cases hget : dictGet args p with
      | none => simp [hget] at this
      | some v =>
        refine ⟨v, rfl, ?_⟩
        simp only [hget] at this
        intro hempty
        rw [show pyStrip (pyStr v) = "" from hempty] at this
        simp at this
    · rw [if_pos hmut] at h3
      simp only [List.filterMap_eq_nil_iff] at h3
      have := h3 p hp
      cases hget : dictGet args p with
      | none => simp [hget] at this
      | some v => exact ⟨v, rfl⟩
  · rintro ⟨h1, h2, h3⟩
    refine ⟨⟨fun k hk => ?_, fun p hp => ?_⟩, ?_⟩
    · rw [if_pos (h1 k hk)]
    · obtain ⟨v, hv, hne⟩ := h2 p hp
      simp only [hv]
      rw [if_neg (by simpa using hne)]
    · by_cases hmut : e.method.isMutating = true
      · rw [if_pos hmut]
        simp only [List.filterMap_eq_nil_iff]
        intro p hp
        obtain ⟨v, hv⟩ := h3 hmut p hp
        simp [hv]
      · rw [if_neg hmut]

/-- C4: for every endpoint descriptor and argument map,
`validate_arguments` returns the empty list exactly when the arguments
are valid in the spec's sense (every key declared, every path parameter
present and non-blank, every body parameter present on mutating verbs);
a descriptor with path params `id` given `id="1", extra="x"` yields
exactly one error, and that error mentions `extra`; and a call violating
all three rule groups reports every violation together, in rule order
(unknown arguments, then path parameters, then body parameters),
without short-circuiting. -/
theorem validate_arguments_complete :
    (∀ (e : RestEndpoint) (args : List (String × Value)),
      e.validate_arguments args = [] ↔ argumentsValidSpec e args) ∧
    (ep_get_post.validate_arguments
        [("id", .vStr "1"), ("extra", .vStr "x")] =
      ["Unknown argument \x27extra\x27 - tool \x27get_post\x27 does not accept this parameter"]) ∧
    (containsSub
      "Unknown argument \x27extra\x27 - tool \x27get_post\x27 does not accept this parameter"
      "extra" = true) ∧
    (ep_update_post.validate_arguments [("bogus", .vStr "x")] =
      ["Unknown argument \x27bogus\x27 - tool \x27update_post\x27 does not accept this parameter",
       "Missing required path parameter: \x27id\x27",
       "Missing required body parameter: \x27title\x27",
       "Missing required body parameter: \x27body\x27",
       "Missing required body parameter: \x27userId\x27"]) :=
  ⟨validate_arguments_nil_iff, by decide, by decide, by decide⟩

/-- C4 witness: the equivalence applied at a concrete valid call. -/
theorem validate_arguments_complete_witness :
    argumentsValidSpec ep_get_post [("id", .vStr "1")] :=
  (validate_arguments_complete.1 ep_get_post [("id", .vStr "1")]).mp rfl

/-- The contexts reachable through the public lifecycle of
`ExecutionContext`: creation through the `from_request` factory, then
any sequence of successful `with_tool_call` / `with_result` /
`discard_results` / `with_reduced_results` steps and `seal`. -/
inductive ReachableCtx : ExecutionContext → Prop where
  | fromReq (request : JsonRpcRequest) (c : ExecutionContext) :
      ExecutionContext.from_request request = .ok c → ReachableCtx c
  | toolCall (c c' : ExecutionContext) (name : String)
      (args : List (String × Value)) : ReachableCtx c →
      c.with_tool_call name args = .ok c' → ReachableCtx c'
  | result (c c' : ExecutionContext) (r : Option ToolCallResult) :
      ReachableCtx c → c.with_result r = .ok c' → ReachableCtx c'
  | sealStep (c : ExecutionContext) : ReachableCtx c → ReachableCtx c.seal
  | discard (c c' : ExecutionContext) : ReachableCtx c →
      c.discard_results = .ok c' → ReachableCtx c'
  | reduced (c c' : ExecutionContext) (n : Nat) : ReachableCtx c →
      c.with_reduced_results n = .ok c' → ReachableCtx c'

/-- A fresh context from the factory has no bound tool and no results. -/
lemma from_request_shape (request : JsonRpcRequest) (c : ExecutionContext)
    (h : ExecutionContext.from_request request = .ok c) :
    c = { request_id := request.id, method := request.method } := by
  unfold ExecutionContext.from_request at h
  split at h
  · split at h
    · exact absurd h (by simp)
    · split at h
      · exact absurd h (by simp)
      · simp only [Except.ok.injEq] at h
        exact h.symm
  · split at h
    · exact absurd h (by simp)
    · simp only [Except.ok.injEq] at h
      exact h.symm

/-- A successful `with_tool_call` binds a (stripped, non-empty) name. -/
lemma with_tool_call_shape (c c' : ExecutionContext) (name : String)
    (args : List (String × Value)) (h : c.with_tool_call name args = .ok c') :
    c.sealed = false ∧ c.tool_name = none ∧
      c' = { request_id := c.request_id, method := c.method,
             tool_name := some (pyStrip name), arguments := args,
             results := c.results, created_at := c.created_at,
             sealed := false } := by
  unfold ExecutionContext.with_tool_call at h
  by_cases hs : c.sealed
  · rw [if_pos hs] at h
    exact absurd h (by simp)
  · rw [if_neg hs] at h
    by_cases hn : (pyStrip name == "") = true
    · rw [if_pos hn] at h
      exact absurd h (by simp)
    · rw [if_neg hn] at h
      cases ht : c.tool_name with
      | some bound => rw [ht] at h; exact absurd h (by simp)
      | none =>
        rw [ht] at h
        simp only [Except.ok.injEq] at h
        exact ⟨by simpa using hs, rfl, h.symm⟩

/-- A successful `with_result` requires a bound tool and appends. -/
lemma with_result_shape (c c' : ExecutionContext) (r : Option ToolCallResult)
    (h : c.with_result r = .ok c') :
    c.sealed = false ∧ ∃ t rr, c.tool_name = some t ∧ r = some rr ∧
      c' = { request_id := c.request_id, method := c.method,
             tool_name := c.tool_name, arguments := c.arguments,
             results := c.results ++ [rr], created_at := c.created_at,
             sealed := false } := by
  unfold ExecutionContext.with_result at h
  by_cases hs : c.sealed
  · rw [if_pos hs] at h
    exact absurd h (by simp)
  · rw [if_neg hs] at h
    cases ht : c.tool_name with
    | none => rw [ht] at h; exact absurd h (by simp)
    | some t =>
      rw [ht] at h
      cases hr : r with
      | none => rw [hr] at h; exact absurd h (by simp)
      | some rr =>
        rw [hr] at h
        simp only [Except.ok.injEq] at h
        exact ⟨by simpa using hs, t, rr, rfl, rfl, by rw [← h]⟩

/-- A successful `discard_results` empties the result sequence. -/
lemma discard_results_shape (c c' : ExecutionContext)
    (h : c.discard_results = .ok c') :
    c.sealed = false ∧
      c' = { request_id := c.request_id, method := c.method,
             tool_name := c.tool_name, arguments := c.arguments,
             results := [], created_at := c.created_at, sealed := false } := by
  unfold ExecutionContext.discard_results at h
  by_cases hs : c.sealed
  · rw [if_pos hs] at h
    exact absurd h (by simp)
  · rw [if_neg hs] at h
    simp only [Except.ok.injEq] at h
    exact ⟨by simpa using hs, h.symm⟩

/-- A successful `with_reduced_results` keeps a suffix of the results
and preserves the bound tool. -/
lemma with_reduced_results_shape (c c' : ExecutionContext) (n : Nat)
    (h : c.with_reduced_results n = .ok c') :
    c.sealed = false ∧
      c' = { request_id := c.request_id, method := c.method,
             tool_name := c.tool_name, arguments := c.arguments,
             results := c.results.drop (c.results.length - n),
             created_at := c.created_at, sealed := false } := by
  unfold ExecutionContext.with_reduced_results at h
  by_cases hs : c.sealed
  · rw [if_pos hs] at h
    exact absurd h (by simp)
  · rw [if_neg hs] at h
    simp only [Except.ok.injEq] at h
    exact ⟨by simpa using hs, h.symm⟩

/-- No partial contexts: every reachable context with accumulated
results has a bound tool name. Shared helper for C7. -/
lemma reachable_results_tool (c : ExecutionContext) (hr : ReachableCtx c) :
    c.results ≠ [] → c.tool_name ≠ none := by
  induction hr with
  | fromReq request c h =>
    rw [from_request_shape request c h]
    intro hres
    simp at hres
  | toolCall c c' name args _ h ih =>
    obtain ⟨_, _, hshape⟩ := with_tool_call_shape c c' name args h
    rw [hshape]
    intro _
    simp
  | result c c' r _ h ih =>
    obtain ⟨_, t, rr, ht, _, hshape⟩ := with_result_shape c c' r h
    rw [hshape]
    intro _
    simp [ht]
  | sealStep c _ ih =>
    simpa [ExecutionContext.seal] using ih
  | discard c c' _ h ih =>
    obtain ⟨_, hshape⟩ := discard_results_shape c c' h
    rw [hshape]
    intro hres
    simp at hres
  | reduced c c' n _ h ih =>
    obtain ⟨_, hshape⟩ := with_reduced_results_shape c c' n h
    rw [hshape]
    intro hres
    simp only [ne_eq]
    intro htn
    have : c.results ≠ [] := by
      intro hnil
      rw [hnil] at hres
      simp at hres
    exact ih this htn

/-- C7: the ExecutionContext invariants hold under every sequence of
operations: every reachable context with a non-empty result sequence has
a bound tool name (a result can only be appended once `tool_name` is
bound); a context whose tool name is set refuses `with_tool_call` for
all arguments (no rebinding); and a sealed context refuses every
mutating method (`with_tool_call`, `with_result`, `discard_results`)
for all arguments. -/
theorem execution_context_invariants :
    (∀ c : ExecutionContext, ReachableCtx c →
      c.results ≠ [] → c.tool_name ≠ none) ∧
    (∀ (c : ExecutionContext) (t name : String)
      (args : List (String × Value)), c.tool_name = some t →
      ∃ e, c.with_tool_call name args = .error e) ∧
    (∀ c : ExecutionContext, c.sealed = true →
      (∀ (name : String) (args : List (String × Value)),
        c.with_tool_call name args =
          .error (ExecutionContext.sealedError "with_tool_call")) ∧
      (∀ r : Option ToolCallResult,
        c.with_result r = .error (ExecutionContext.sealedError "with_result")) ∧
      c.discard_results =
        .error (ExecutionContext.sealedError "discard_results")) := by
  refine ⟨reachable_results_tool, ?_, ?_⟩
  · intro c t name args ht
    unfold ExecutionContext.with_tool_call
    by_cases hs : c.sealed = true
    · exact ⟨_, by rw [if_pos hs]⟩
    · rw [if_neg hs]
      by_cases hn : (pyStrip name == "") = true
      · exact ⟨_, by rw [if_pos hn]⟩
      · rw [if_neg hn, ht]
        exact ⟨_, rfl⟩
  · intro c hs
    refine ⟨fun name args => ?_, fun r => ?_, ?_⟩
    · unfold ExecutionContext.with_tool_call
      rw [if_pos hs]
    · unfold ExecutionContext.with_result
      rw [if_pos hs]
    · unfold ExecutionContext.discard_results
      rw [if_pos hs]

/-- C7 witness: the three invariants applied at concrete contexts — a
context reached by factory, bind and result append; a bound context hit
with a rebinding attempt; and a sealed context hit with each mutator. -/
theorem execution_context_invariants_witness :
    (({ request_id := .num 1, method := "tools/call",
        tool_name := some "get_post", arguments := [("id", Value.vStr "1")],
        results := [{ content := [.text "ok"], isError := false }],
        created_at := 0, sealed := false } : ExecutionContext).tool_name ≠
      none) ∧
    (∃ e, ExecutionContext.with_tool_call
      { request_id := .num 1, method := "tools/call",
        tool_name := some "get_post", arguments := [], results := [],
        created_at := 0, sealed := false } "other" [] = .error e) ∧
    (ExecutionContext.with_tool_call
      { request_id := .num 1, method := "tools/call", tool_name := none,
        arguments := [], results := [], created_at := 0, sealed := true }
      "t" [] = .error (ExecutionContext.sealedError "with_tool_call")) := by
  refine ⟨?_, ?_, ?_⟩
  · exact execution_context_invariants.1 _
      (ReachableCtx.result
        { request_id := .num 1, method := "tools/call",
          tool_name := some "get_post",
          arguments := [("id", Value.vStr "1")], results := [],
          created_at := 0, sealed := false }
        _ (some { content := [.text "ok"], isError := false })
        (ReachableCtx.toolCall
          { request_id := .num 1, method := "tools/call" } _ "get_post"
          [("id", Value.vStr "1")]
          (ReachableCtx.fromReq
            { id := .num 1, method := "tools/call" } _ rfl) rfl) rfl)
      (by decide)
  · exact execution_context_invariants.2.1 _ "get_post" "other" [] rfl
  · exact (execution_context_invariants.2.2 _ rfl).1 "t" []

/-- C9 (modelled from the spec, see `ExecutionContext.with_reduced_results`):
`with_reduced_results(n)` rejects a sealed context; on an unsealed
context it shrinks the result sequence to the `n` most recent results (a
suffix of length `min n` count, tool binding preserved); and a bound
context with one appended result has `result_count() = 1` and, after
`with_reduced_results(0)`, `result_count() = 0`. -/
theorem with_reduced_results_spec :
    (∀ (c : ExecutionContext) (n : Nat), c.sealed = true →
      c.with_reduced_results n =
        .error (ExecutionContext.sealedError "with_reduced_results")) ∧
    (∀ (c : ExecutionContext) (n : Nat), c.sealed = false →
      ∃ c', c.with_reduced_results n = .ok c' ∧
        c'.results = c.results.drop (c.results.length - n) ∧
        c'.results.length = min n c.results.length ∧
        c'.tool_name = c.tool_name) ∧
    (({ request_id := .num 1, method := "tools/call",
        tool_name := some "t", arguments := [],
        results := [{ content := [.text "ok"], isError := false }],
        created_at := 0, sealed := false } : ExecutionContext).result_count
        = 1 ∧
      ∃ c', ExecutionContext.with_reduced_results
        { request_id := .num 1, method := "tools/call",
          tool_name := some "t", arguments := [],
          results := [{ content := [.text "ok"], isError := false }],
          created_at := 0, sealed := false } 0 = .ok c' ∧
        c'.result_count = 0) := by
  refine ⟨?_, ?_, rfl, ?_⟩
  · intro c n hs
    unfold ExecutionContext.with_reduced_results
    rw [if_pos hs]
  · intro c n hs
    refine ⟨{ request_id := c.request_id, method := c.method,
              tool_name := c.tool_name, arguments := c.arguments,
              results := c.results.drop (c.results.length - n),
              created_at := c.created_at, sealed := false }, ?_, rfl, ?_, rfl⟩
    · unfold ExecutionContext.with_reduced_results
      rw [if_neg (by simp [hs])]
    · simp only [List.length_drop]
      omega
  · exact ⟨_, rfl, rfl⟩

/-- C9 witness: rejection on a sealed context and reduction on a live
one, at concrete inputs. -/
theorem with_reduced_results_spec_witness :
    (ExecutionContext.with_reduced_results
      { request_id := .num 1, method := "m", tool_name := none,
        arguments := [], results := [], created_at := 0, sealed := true } 3 =
      .error (ExecutionContext.sealedError "with_reduced_results")) ∧
    (∃ c', ExecutionContext.with_reduced_results
      { request_id := .num 1, method := "m", tool_name := some "t",
        arguments := [],
        results := [{ content := [.text "a"], isError := false },
                    { content := [.text "b"], isError := true }],
        created_at := 0, sealed := false } 1 = .ok c' ∧
      c'.results = [{ content := [.text "b"], isError := true }] ∧
      c'.results.length = 1 ∧ c'.tool_name = some "t") := by
  constructor
  · exact with_reduced_results_spec.1 _ 3 rfl
  · obtain ⟨c', h1, h2, h3, h4⟩ := with_reduced_results_spec.2.1
      { request_id := .num 1, method := "m", tool_name := some "t",
        arguments := [],
        results := [{ content := [.text "a"], isError := false },
                    { content := [.text "b"], isError := true }],
        created_at := 0, sealed := false } 1 rfl
    exact ⟨c', h1, by simpa using h2, by simpa using h3, h4⟩

/-- Every failure emitted by the gateway boundary is a `GatewayFailure`
of one of the four taxonomy kinds. Shared helper for C2. -/
lemma gatewayBoundary_taxonomy {α : Type} (r : Except GatewayExc α)
    (e' : GatewayExc) (h : gatewayBoundary r = .error e') :
    e'.isGatewayFailure = true ∧ e'.isTaxonomyKind = true := by
  unfold gatewayBoundary at h
  split at h
  · exact absurd h (by simp)
  next ex =>
    by_cases hg : ex.isGatewayFailure = true
    · rw [if_pos hg] at h
      simp only [Except.error.injEq] at h
      subst h
      cases ex <;> simp_all [GatewayExc.isGatewayFailure,
        GatewayExc.isTaxonomyKind, GatewayExc.failureCategory]
    · rw [if_neg hg] at h
      simp only [Except.error.injEq] at h
      subst h
      exact ⟨rfl, rfl⟩

/-- C2: every failure escaping `handle_request` is typed — it is a
`GatewayFailure` belonging to one of the four taxonomy kinds; a raw
(non-`GatewayFailure`) exception reaching the boundary is wrapped (as
`GatewayInternalFailure`, modelled per the spec as a `ConfigurationError`
subtype) rather than allowed through; and everything the boundary emits
is of the four kinds. -/
theorem gateway_failures_taxonomy :
    (∀ (a : RestToMcpAdapter) (oracle : TransportOutcome)
      (req : JsonRpcRequest) (e : GatewayExc),
      a.handle_request oracle req = .error e →
      e.isGatewayFailure = true ∧ e.isTaxonomyKind = true) ∧
    (∀ ex : GatewayExc, ex.isGatewayFailure = false →
      gatewayBoundary (Except.error ex : Except GatewayExc Unit) =
        .error (.gatewayInternal ex.message)) ∧
    (∀ ex e' : GatewayExc,
      gatewayBoundary (Except.error ex : Except GatewayExc Unit) =
        .error e' →
      e'.isGatewayFailure = true ∧ e'.isTaxonomyKind = true) := by
  refine ⟨?_, ?_, ?_⟩
  · intro a oracle req e h
    exact gatewayBoundary_taxonomy _ e h
  · intro ex hg
    simp [gatewayBoundary, hg]
  · intro ex e' h
    exact gatewayBoundary_taxonomy _ e' h

/-- C2 witness: a blank-method request makes `handle_request` raise a
`ContextError`; by the theorem, what escapes is a taxonomy failure; and
a concrete raw exception is wrapped at the boundary. -/
theorem gateway_failures_taxonomy_witness :
    ((GatewayExc.contextError
        "Cannot create context: request.method is empty").isGatewayFailure =
      true ∧
     (GatewayExc.contextError
        "Cannot create context: request.method is empty").isTaxonomyKind =
      true) ∧
    gatewayBoundary (Except.error (.otherExc "boom") : Except GatewayExc Unit) =
      .error (.gatewayInternal "boom") := by
  constructor
  · exact gateway_failures_taxonomy.1 create_jsonplaceholder_adapter
      (.response 200 "x") { id := .num 1, method := " ", params := none } _ rfl
  · exact gateway_failures_taxonomy.2.1 (.otherExc "boom") rfl

/-- C3: config.py sets `HTTP_ERROR_THRESHOLD = 200`, and the executor
marks a completed call errored whenever `status >= HTTP_ERROR_THRESHOLD`
— so every completed upstream response at or above 200, including a
successful 200 OK, yields a `ToolCallResult` with `isError = true`,
contradicting the claim (and the repository's own tests, which assert
`not result.isError` on 200-status mock responses). -/
theorem http_error_threshold_marks_200_errored :
    HTTP_ERROR_THRESHOLD = 200 ∧
    (∀ (status : Nat) (text : String),
      create_jsonplaceholder_adapter.call_tool (.response status text)
        "get_posts" [] =
      .ok { content := [.text text],
            isError := decide (status ≥ HTTP_ERROR_THRESHOLD) }) ∧
    create_jsonplaceholder_adapter.call_tool (.response 200 "[]")
      "get_posts" [] =
      .ok { content := [.text "[]"], isError := true } :=
  ⟨rfl, fun _ _ => rfl, rfl⟩

/-- C8: adapter.py exposes the public mutator `register_endpoint`; it
writes to the registry after construction, so the tool set visible to a
later dispatch is not fixed at construction time — contradicting the
claim (and the repository's own test `test_register_endpoint_removed`,
which asserts the adapter has no such attribute). -/
theorem register_endpoint_mutates_registry :
    (mkAdapter "https://api.example.com" []).endpoints = [] ∧
    ((mkAdapter "https://api.example.com" []).register_endpoint
      ep_get_post).endpoints = [("get_post", ep_get_post)] ∧
    ((mkAdapter "https://api.example.com" []).register_endpoint
      ep_get_post).list_tools.length = 1 :=
  ⟨rfl, rfl, rfl⟩

/-- A store of live Python dict objects: reference-indexed mutable
dictionaries. Used to state, in explicit state-passing form, the
aliasing behaviour of the `ExecutionContext` argument snapshot (Python
dicts are mutable heap objects; the pure embedding above uses values). -/
structure PyStore where
  cells : List (Nat × List (String × Value))

/-- Dereference a dict object (an absent reference reads as empty). -/
def PyStore.read (s : PyStore) (r : Nat) : List (String × Value) :=
  match s.cells.find? (fun c => c.1 == r) with
  | some c => c.2
  | none => []

/-- A reference unused by any live object. -/
def PyStore.freshRef (s : PyStore) : Nat :=
  (s.cells.map Prod.fst).foldr max 0 + 1

/-- Allocate a new dict object with the given contents. -/
def PyStore.alloc (s : PyStore) (contents : List (String × Value)) :
    Nat × PyStore :=
  (s.freshRef, ⟨s.cells ++ [(s.freshRef, contents)]⟩)

/-- In-place mutation `obj[k] = v` of the dict object behind `r`. -/
def PyStore.writeKey (s : PyStore) (r : Nat) (k : String) (v : Value) :
    PyStore :=
  ⟨s.cells.map (fun c => if c.1 == r then (c.1, dictInsert c.2 k v) else c)⟩

/-- models.py line 442, `new_ctx._arguments = dict(arguments)`, in heap
view: binding a tool call stores a freshly allocated copy of the
caller's argument dict, not the caller's reference. -/
def with_tool_call_snapshot (s : PyStore) (callerArgs : Nat) : Nat × PyStore :=
  s.alloc (s.read callerArgs)

/-- models.py lines 389-392, the `arguments` property
`return dict(self._arguments)`, in heap view: reading the snapshot hands
out a freshly allocated copy, not the stored reference. -/
def arguments_property (s : PyStore) (ctxArgs : Nat) : Nat × PyStore :=
  s.alloc (s.read ctxArgs)

/-- Auxiliary: a member of a list of naturals is at most its max-fold. -/
lemma le_foldr_max (l : List Nat) (r : Nat) (h : r ∈ l) :
    r ≤ l.foldr max 0 := by
  induction l with
  | nil => simp at h
  | cons a t ih =>
    rcases List.mem_cons.mp h with h1 | h2
    · subst h1
      exact le_max_left _ _
    · exact le_trans (ih h2) (le_max_right _ _)

/-- Every live reference is below the fresh one. -/
lemma ref_lt_freshRef (s : PyStore) (r : Nat)
    (h : s.cells.any (fun c => c.1 == r) = true) : r < s.freshRef := by
  unfold PyStore.freshRef
  simp only [List.any_eq_true, beq_iff_eq] at h
  obtain ⟨c, hc, hr⟩ := h
  have hmem : r ∈ s.cells.map Prod.fst := by
    rw [← hr]
    exact List.mem_map_of_mem Prod.fst hc
  have := le_foldr_max _ r hmem
  omega

/-- Reading a freshly allocated object yields its contents. -/
lemma read_alloc_self (s : PyStore) (contents : List (String × Value)) :
    (s.alloc contents).2.read (s.alloc contents).1 = contents := by
  unfold PyStore.alloc PyStore.read
  simp only [List.find?_append]
  have hnone : s.cells.find? (fun c => c.1 == s.freshRef) = none := by
    rw [List.find?_eq_none]
    intro c hc hbeq
    have : s.freshRef < s.freshRef := by
      apply ref_lt_freshRef
      simp only [List.any_eq_true]
      exact ⟨c, hc, hbeq⟩
    omega
  rw [hnone]
  simp

/-- Reading an object other than the (sole) mutated one is unchanged. -/
lemma read_writeKey_other (s : PyStore) (r r' : Nat) (k : String) (v : Value)
    (hne : r' ≠ r) : (s.writeKey r k v).read r' = s.read r' := by
  unfold PyStore.writeKey PyStore.read
  induction s.cells with
  | nil => simp
  | cons c cs ih =>
    simp only [List.map_cons, List.find?_cons]
    by_cases hc : (c.1 == r) = true
    · rw [if_pos hc]
      have hcr : (c.1 == r') = false := by
        simp only [beq_iff_eq] at hc
        simp only [beq_eq_false_iff_ne, ne_eq]
        intro heq
        omega
      simp only [hcr]
      simpa using ih
    · rw [if_neg hc]
      by_cases hcr : (c.1 == r') = true
      · simp only [hcr]
      · simp only [hcr]
        simpa using ih

/-- Reading an object present before an allocation is unchanged. -/
lemma read_alloc_other (s : PyStore) (contents : List (String × Value))
    (r : Nat) (h : s.cells.any (fun c => c.1 == r) = true) :
    (s.alloc contents).2.read r = s.read r := by
  unfold PyStore.alloc PyStore.read
  simp only [List.find?_append]
  have : (s.cells.find? (fun c => c.1 == r)).isSome := by
    rw [List.find?_isSome]
    simpa [List.any_eq_true] using h
  cases hf : s.cells.find? (fun c => c.1 == r) with
  | none => rw [hf] at this; simp at this
  | some c => simp

/-- C10: the ExecutionContext argument snapshot is isolated in both
directions. Binding stores a defensive copy (models.py line 442), so
mutating the caller's dict after binding leaves the snapshot reading its
bind-time contents; and the `arguments` property returns a fresh copy
(models.py lines 389-392), so mutating the returned dict leaves the
stored snapshot unchanged. -/
theorem argument_snapshot_isolation :
    (∀ (s : PyStore) (callerRef : Nat) (k : String) (v : Value),
      s.cells.any (fun c => c.1 == callerRef) = true →
      ((with_tool_call_snapshot s callerRef).2.writeKey callerRef k v).read
        (with_tool_call_snapshot s callerRef).1 = s.read callerRef) ∧
    (∀ (s : PyStore) (ctxRef : Nat) (k : String) (v : Value),
      s.cells.any (fun c => c.1 == ctxRef) = true →
      ((arguments_property s ctxRef).2.writeKey
        (arguments_property s ctxRef).1 k v).read ctxRef = s.read ctxRef) := by
  constructor
  · intro s callerRef k v hlive
    have hne : (s.alloc (s.read callerRef)).1 ≠ callerRef := by
      have := ref_lt_freshRef s callerRef hlive
      unfold PyStore.alloc
      omega
    unfold with_tool_call_snapshot
    rw [read_writeKey_other _ _ _ _ _ hne]
    exact read_alloc_self s (s.read callerRef)
  · intro s ctxRef k v hlive
    have hne : ctxRef ≠ (s.alloc (s.read ctxRef)).1 := by
      have := ref_lt_freshRef s ctxRef hlive
      unfold PyStore.alloc
      omega
    unfold arguments_property
    rw [read_writeKey_other _ _ _ _ _ hne]
    exact read_alloc_other s (s.read ctxRef) ctxRef hlive

/-- C10 witness: both isolation directions at a concrete one-object
store holding the dict `id -> "1"`, mutated with `id -> "2"`. -/
theorem argument_snapshot_isolation_witness :
    ((with_tool_call_snapshot ⟨[(0, [("id", Value.vStr "1")])]⟩ 0).2.writeKey
        0 "id" (Value.vStr "2")).read
      (with_tool_call_snapshot ⟨[(0, [("id", Value.vStr "1")])]⟩ 0).1 =
      [("id", Value.vStr "1")] ∧
    ((arguments_property ⟨[(0, [("id", Value.vStr "1")])]⟩ 0).2.writeKey
        (arguments_property ⟨[(0, [("id", Value.vStr "1")])]⟩ 0).1
        "id" (Value.vStr "2")).read 0 = [("id", Value.vStr "1")] :=
  ⟨(argument_snapshot_isolation.1 ⟨[(0, [("id", Value.vStr "1")])]⟩ 0 "id"
      (Value.vStr "2") (by decide)).trans rfl,
   (argument_snapshot_isolation.2 ⟨[(0, [("id", Value.vStr "1")])]⟩ 0 "id"
      (Value.vStr "2") (by decide)).trans rfl⟩

/-- A prefix of `s` is a prefix of `s ++ t`. -/
lemma startsWithChars_append (p s t : List Char)
    (h : startsWithChars s p = true) : startsWithChars (s ++ t) p = true := by
  induction p generalizing s with
  | nil =>
    cases s ++ t with
    | nil => rfl
    | cons c cs => rfl
  | cons pc pt ih =>
    cases s with
    | nil => simp [startsWithChars] at h
    | cons c cs =>
      simp only [List.cons_append, startsWithChars, Bool.and_eq_true] at h ⊢
      exact ⟨h.1, ih cs h.2⟩

/-- A substring of `s` is a substring of `s ++ t`. -/
lemma hasSub_append_left (pat s t : List Char) (h : hasSub pat s = true) :
    hasSub pat (s ++ t) = true := by
  induction s with
  | nil =>
    cases pat with
    | nil =>
      cases t with
      | nil => exact h
      | cons c cs => simp [hasSub, startsWithChars]
    | cons pc pt => simp [hasSub, startsWithChars] at h
  | cons c cs ih =>
    simp only [List.cons_append, hasSub, Bool.or_eq_true] at h ⊢
    rcases h with h | h
    · exact Or.inl (startsWithChars_append _ _ _ h)
    · exact Or.inr (ih h)

/-- A substring of a string prefix survives appending a suffix. -/
lemma containsSub_append_left (s t pat : String)
    (h : containsSub s pat = true) : containsSub (s ++ t) pat = true := by
  unfold containsSub at h ⊢
  rw [String.data_append]
  exact hasSub_append_left _ _ _ h

/-- The spec's validity condition for the request identity: a blank
string id or a blank method makes the context factory raise. -/
def validRequestIdentity (req : JsonRpcRequest) : Prop :=
  (∀ s, req.id = .str s → pyStrip s ≠ "") ∧ pyStrip req.method ≠ ""

/-- A tools/call payload that parses must carry a non-blank tool name
(otherwise `with_tool_call` raises a `ContextError` out of dispatch). -/
def parsedToolNameNonEmpty (req : JsonRpcRequest) : Prop :=
  ∀ p tc, req.params = some p → parseToolCallParams p = .ok tc →
    pyStrip tc.name ≠ ""

/-- Registries whose endpoints declare body parameters only on mutating
verbs (true of the shipped catalogs); on such registries the executor's
body-building check cannot fire after validation has passed. -/
def bodiesOnlyOnMutating (a : RestToMcpAdapter) : Prop :=
  ∀ kv ∈ a.endpoints, kv.2.body_params ≠ [] → kv.2.method.isMutating = true

/-- The factory succeeds on a valid identity and yields the fresh
context. -/
lemma from_request_ok_of_valid (req : JsonRpcRequest)
    (h : validRequestIdentity req) :
    ExecutionContext.from_request req =
      .ok { request_id := req.id, method := req.method } := by
  unfold ExecutionContext.from_request
  split
  next s heq =>
    rw [if_neg (by simpa using h.1 s heq), if_neg (by simpa using h.2)]
  next n heq =>
    rw [if_neg (by simpa using h.2)]

/-- A successful registry lookup means the pair is in the registry. -/
lemma lookup_mem (a : RestToMcpAdapter) (name : String) (ep : RestEndpoint)
    (h : a.lookup name = some ep) : (name, ep) ∈ a.endpoints := by
  unfold RestToMcpAdapter.lookup at h
  cases hf : a.endpoints.find? (fun kv => kv.1 == name) with
  | none => rw [hf] at h; simp at h
  | some kv =>
    rw [hf] at h
    simp only [Option.some.injEq] at h
    have hmem := List.mem_of_find?_eq_some hf
    have hpred := List.find?_some hf
    simp only [beq_iff_eq] at hpred
    have hkv : kv = (name, ep) := by
      cases kv
      simp_all
    rw [hkv] at hmem
    exact hmem

/-- URL building succeeds when every path parameter is supplied. -/
lemma build_url_ok (a : RestToMcpAdapter) (ep : RestEndpoint)
    (args : List (String × Value))
    (hpath : ep.path_params.filter (fun p => !(dictGet args p).isSome) = []) :
    ∃ u, a.build_url ep args = .ok u := by
  unfold RestToMcpAdapter.build_url
  rw [hpath]
  cases ep.base_url <;> simp

/-- Body building succeeds when the declared body parameters are
supplied (or none are declared). -/
lemma build_body_ok (ep : RestEndpoint) (args : List (String × Value))
    (hbody : ep.body_params ≠ [] →
      ep.body_params.filter (fun p => !(dictGet args p).isSome) = []) :
    ∃ b, RestToMcpAdapter.build_body ep args = .ok b := by
  unfold RestToMcpAdapter.build_body
  by_cases hbp : ep.body_params = []
  · rw [if_pos hbp]
    exact ⟨none, rfl⟩
  · rw [if_neg hbp, hbody hbp]
    simp

/-- When arguments passed validation (and the endpoint declares body
parameters only if its verb mutates), the executor cannot raise a
`ContractViolation`: its outcome is decided by the transport oracle
alone. -/
lemma call_tool_after_validation (a : RestToMcpAdapter)
    (oracle : TransportOutcome) (name : String) (ep : RestEndpoint)
    (args : List (String × Value)) (hlook : a.lookup name = some ep)
    (hval : ep.validate_arguments args = [])
    (hb : ep.body_params ≠ [] → ep.method.isMutating = true) :
    a.call_tool oracle name args =
      match oracle with
      | .response status text =>
        .ok { content := [.text text],
              isError := decide (status ≥ HTTP_ERROR_THRESHOLD) }
      | .timeout => .error (.toolTimeout name HTTP_TIMEOUT_SECONDS)
      | .httpError msg =>
        .ok { content := [.text ("HTTP error: " ++ msg)], isError := true } := by
  have hspec := (validate_arguments_nil_iff ep args).mp hval
  have hpath : ep.path_params.filter
      (fun p => !(dictGet args p).isSome) = [] := by
    rw [List.filter_eq_nil_iff]
    intro p hp
    obtain ⟨v, hv, _⟩ := hspec.2.1 p hp
    simp [hv]
  have hbody : ep.body_params ≠ [] →
      ep.body_params.filter (fun p => !(dictGet args p).isSome) = [] := by
    intro hbp
    rw [List.filter_eq_nil_iff]
    intro p hp
    obtain ⟨v, hv⟩ := hspec.2.2 (hb hbp) p hp
    simp [hv]
  obtain ⟨u, hu⟩ := build_url_ok a ep args hpath
  obtain ⟨b, hbb⟩ := build_body_ok ep args hbody
  unfold RestToMcpAdapter.call_tool
  simp only [hlook, hu, hbb]

/-- `with_result` succeeds on an unsealed, bound context. -/
lemma with_result_ok (c : ExecutionContext) (r : ToolCallResult)
    (hs : c.sealed = false) (t : String) (ht : c.tool_name = some t) :
    c.with_result (some r) =
      .ok { request_id := c.request_id, method := c.method,
            tool_name := c.tool_name, arguments := c.arguments,
            results := c.results ++ [r], created_at := c.created_at,
            sealed := false } := by
  unfold ExecutionContext.with_result
  rw [if_neg (by simp [hs]), ht]

/-- On a fresh context with a parseable, non-blank tool name (and a
registry declaring bodies only on mutating verbs), the tools/call
orchestration always returns an envelope: nothing raises out of it. -/
lemma handle_tools_call_total (a : RestToMcpAdapter)
    (oracle : TransportOutcome) (req : JsonRpcRequest)
    (ctx : ExecutionContext) (hsealed : ctx.sealed = false)
    (htool : ctx.tool_name = none) (hname : parsedToolNameNonEmpty req)
    (hb : bodiesOnlyOnMutating a) :
    ∃ env ctx', a.handle_tools_call oracle req ctx = .ok (env, ctx') := by
  unfold RestToMcpAdapter.handle_tools_call
  cases hp : req.params with
  | none => exact ⟨_, _, rfl⟩
  | some p =>
    dsimp only []
    cases hparse : parseToolCallParams p with
    | error e => exact ⟨_, _, rfl⟩
    | ok tc =>
      dsimp only []
      have hnm : pyStrip tc.name ≠ "" := hname p tc hp hparse
      have hwtc : ctx.with_tool_call tc.name tc.arguments =
          .ok { request_id := ctx.request_id, method := ctx.method,
                tool_name := some (pyStrip tc.name),
                arguments := tc.arguments, results := ctx.results,
                created_at := ctx.created_at, sealed := false } := by
        unfold ExecutionContext.with_tool_call
        rw [if_neg (by simp [hsealed]), if_neg (by simpa using hnm), htool]
      simp only [hwtc]
      cases hlook : a.lookup tc.name with
      | none => exact ⟨_, _, rfl⟩
      | some ep =>
        dsimp only []
        cases hval : ep.validate_arguments tc.arguments with
        | cons verr verrs => exact ⟨_, _, rfl⟩
        | nil =>
          dsimp only []
          cases hguard : RestToMcpAdapter.check_destructive_operation
              tc.name tc.arguments with
          | some g => exact ⟨_, _, rfl⟩
          | none =>
            dsimp only []
            have hct := call_tool_after_validation a oracle tc.name ep
              tc.arguments hlook hval
              (fun hbp => hb (tc.name, ep) (lookup_mem a tc.name ep hlook) hbp)
            simp only [hct]
            cases oracle with
            | timeout => exact ⟨_, _, rfl⟩
            | response status text =>
              dsimp only []
              rw [with_result_ok _ _ rfl (pyStrip tc.name) rfl]
              exact ⟨_, _, rfl⟩
            | httpError msg =>
              dsimp only []
              rw [with_result_ok _ _ rfl (pyStrip tc.name) rfl]
              exact ⟨_, _, rfl⟩

/-- C1 counterexample: for requests in the call-tool state (method
`tools/call`) `dispatch` does not always return an envelope — a parsed
empty tool name makes `with_tool_call` raise a `ContextError`, which the
boundary re-raises as a `GatewayFailure`, so `handle_request` raises
instead of returning; likewise a blank method raises from the context
factory before any branch (and that request is in the
unrecognized-method state). -/
theorem dispatch_raises_on_blank_tool_name :
    create_jsonplaceholder_adapter.handle_request (.response 200 "x")
      { id := .num 1, method := "tools/call",
        params := some [("name", .vStr ""), ("arguments", mkDict [])] } =
      .error (.contextError "Cannot bind tool call: name is empty") ∧
    create_jsonplaceholder_adapter.handle_request (.response 200 "x")
      { id := .num 1, method := " ", params := none } =
      .error (.contextError "Cannot create context: request.method is empty") :=
  ⟨rfl, rfl⟩

/-- C1 (amended): for every request whose identity passes context
validation (non-blank id and method) and whose tools/call payload, if it
parses, names a non-blank tool — and on a registry declaring body
parameters only on mutating verbs, as the shipped catalogs do —
`handle_request` returns exactly one envelope (the return type yields a
single success-or-error envelope) together with a sealed context, in
each of the four method states. -/
theorem dispatch_completeness_amended (a : RestToMcpAdapter)
    (oracle : TransportOutcome) (req : JsonRpcRequest)
    (h1 : validRequestIdentity req)
    (h2 : req.method = "tools/call" → parsedToolNameNonEmpty req)
    (h3 : bodiesOnlyOnMutating a) :
    ∃ env ctx, a.handle_request oracle req = .ok (env, ctx) ∧
      ctx.sealed = true := by
  unfold RestToMcpAdapter.handle_request RestToMcpAdapter.handle_request_inner
  rw [from_request_ok_of_valid req h1]
  dsimp only []
  by_cases hm1 : (req.method == "initialize") = true
  · rw [if_pos hm1]
    exact ⟨_, _, rfl, rfl⟩
  · rw [if_neg hm1]
    by_cases hm2 : (req.method == "tools/list") = true
    · rw [if_pos hm2]
      exact ⟨_, _, rfl, rfl⟩
    · rw [if_neg hm2]
      by_cases hm3 : (req.method == "tools/call") = true
      · rw [if_pos hm3]
        obtain ⟨env, ctx', hok⟩ := handle_tools_call_total a oracle req
          { request_id := req.id, method := req.method } rfl rfl
          (h2 (by simpa using hm3)) h3
        rw [hok]
        exact ⟨_, _, rfl, rfl⟩
      · rw [if_neg hm3]
        exact ⟨_, _, rfl, rfl⟩

/-- C1 witness: the amended dispatch-completeness theorem applied to a
concrete initialize request against the shipped catalog adapter. -/
theorem dispatch_completeness_amended_witness :
    ∃ env ctx, create_jsonplaceholder_adapter.handle_request
      (.response 200 "x")
      { id := .num 1, method := "initialize", params := none } =
      .ok (env, ctx) ∧ ctx.sealed = true :=
  dispatch_completeness_amended create_jsonplaceholder_adapter
    (.response 200 "x") { id := .num 1, method := "initialize", params := none }
    ⟨(fun _ h => nomatch h), by decide⟩
    (fun h => absurd h (by decide))
    (by unfold bodiesOnlyOnMutating; decide)

/-- `with_tool_call` succeeds on a fresh context with a non-blank name. -/
lemma with_tool_call_ok (c : ExecutionContext) (name : String)
    (args : List (String × Value)) (hs : c.sealed = false)
    (ht : c.tool_name = none) (hn : pyStrip name ≠ "") :
    c.with_tool_call name args =
      .ok { request_id := c.request_id, method := c.method,
            tool_name := some (pyStrip name), arguments := args,
            results := c.results, created_at := c.created_at,
            sealed := false } := by
  unfold ExecutionContext.with_tool_call
  rw [if_neg (by simp [hs]), if_neg (by simpa using hn), ht]

/-- Full reduction of `handle_request` on a tools/call request that
reaches the executor (parse, bind, lookup, validation and guard all
pass): the transport oracle alone decides which envelope and context
come back. Shared helper for the executor-facing claims. -/
lemma handle_request_executor_outcome (a : RestToMcpAdapter)
    (oracle : TransportOutcome) (req : JsonRpcRequest)
    (p : List (String × Value)) (tc : ToolCallParams) (ep : RestEndpoint)
    (h1 : validRequestIdentity req) (hm : req.method = "tools/call")
    (hp : req.params = some p) (hparse : parseToolCallParams p = .ok tc)
    (hnm : pyStrip tc.name ≠ "") (hlook : a.lookup tc.name = some ep)
    (hval : ep.validate_arguments tc.arguments = [])
    (hguard : RestToMcpAdapter.check_destructive_operation tc.name
      tc.arguments = none)
    (hb : ep.body_params ≠ [] → ep.method.isMutating = true) :
    a.handle_request oracle req =
      match oracle with
      | .timeout =>
        .ok (.error req.id INTERNAL_ERROR
              (GatewayExc.message (.toolTimeout tc.name HTTP_TIMEOUT_SECONDS))
              (some (mkDict [("tool", .vStr tc.name),
                ("timeout_seconds", .vInt (HTTP_TIMEOUT_SECONDS : Int)),
                ("failure_mode", .vStr "timeout")])),
             { request_id := req.id, method := req.method,
               tool_name := some (pyStrip tc.name),
               arguments := tc.arguments, results := [], created_at := 0,
               sealed := true })
      | .response status text =>
        .ok (.success req.id (ToolCallResult.toValue
              { content := [.text text],
                isError := decide (status ≥ HTTP_ERROR_THRESHOLD) }),
             { request_id := req.id, method := req.method,
               tool_name := some (pyStrip tc.name),
               arguments := tc.arguments,
               results := [{ content := [.text text], isError := decide (status ≥ HTTP_ERROR_THRESHOLD) }],
               created_at := 0, sealed := true })
      | .httpError msg =>
        .ok (.success req.id (ToolCallResult.toValue
              { content := [.text ("HTTP error: " ++ msg)], isError := true }),
             { request_id := req.id, method := req.method,
               tool_name := some (pyStrip tc.name),
               arguments := tc.arguments,
               results := [{ content := [.text ("HTTP error: " ++ msg)], isError := true }],
               created_at := 0, sealed := true }) := by
  unfold RestToMcpAdapter.handle_request RestToMcpAdapter.handle_request_inner
  rw [from_request_ok_of_valid req h1]
  dsimp only []
  rw [hm]
  rw [if_neg (by decide), if_neg (by decide), if_pos (by decide)]
  unfold RestToMcpAdapter.handle_tools_call
  simp only [hp]
  simp only [hparse]
  simp only [with_tool_call_ok
    { request_id := req.id, method := "tools/call" } tc.name tc.arguments
    rfl rfl hnm]
  simp only [hlook, hval, hguard]
  simp only [call_tool_after_validation a oracle tc.name ep tc.arguments
    hlook hval hb]
  cases oracle with
  | timeout => rfl
  | response status text =>
    dsimp only []
    rw [with_result_ok _ _ rfl (pyStrip tc.name) rfl]
    rfl
  | httpError msg =>
    dsimp only []
    rw [with_result_ok _ _ rfl (pyStrip tc.name) rfl]
    rfl

/-- C6: when call-tool execution reaches the transport, a timeout is
caught explicitly and reported as an `INTERNAL_ERROR` envelope carrying
`{tool, timeout_seconds, failure_mode: "timeout"}` — produced from the
single transport consultation, with no retry — while every other
transport-level error is folded into a `ToolCallResult` marked errored
and returned in a success envelope rather than raised. -/
theorem timeout_explicit_other_transport_folded (a : RestToMcpAdapter)
    (req : JsonRpcRequest) (p : List (String × Value)) (tc : ToolCallParams)
    (ep : RestEndpoint) (h1 : validRequestIdentity req)
    (hm : req.method = "tools/call") (hp : req.params = some p)
    (hparse : parseToolCallParams p = .ok tc) (hnm : pyStrip tc.name ≠ "")
    (hlook : a.lookup tc.name = some ep)
    (hval : ep.validate_arguments tc.arguments = [])
    (hguard : RestToMcpAdapter.check_destructive_operation tc.name
      tc.arguments = none)
    (hb : ep.body_params ≠ [] → ep.method.isMutating = true) :
    (a.handle_request .timeout req =
      .ok (.error req.id INTERNAL_ERROR
            (GatewayExc.message (.toolTimeout tc.name HTTP_TIMEOUT_SECONDS))
            (some (mkDict [("tool", .vStr tc.name),
              ("timeout_seconds", .vInt (HTTP_TIMEOUT_SECONDS : Int)),
              ("failure_mode", .vStr "timeout")])),
           { request_id := req.id, method := req.method,
             tool_name := some (pyStrip tc.name), arguments := tc.arguments,
             results := [], created_at := 0, sealed := true })) ∧
    (∀ msg, a.handle_request (.httpError msg) req =
      .ok (.success req.id (ToolCallResult.toValue
            { content := [.text ("HTTP error: " ++ msg)], isError := true }),
           { request_id := req.id, method := req.method,
             tool_name := some (pyStrip tc.name), arguments := tc.arguments,
             results := [{ content := [.text ("HTTP error: " ++ msg)], isError := true }],
             created_at := 0, sealed := true })) := by
  constructor
  · rw [handle_request_executor_outcome a .timeout req p tc ep h1 hm hp
      hparse hnm hlook hval hguard hb]
  · intro msg
    rw [handle_request_executor_outcome a (.httpError msg) req p tc ep h1 hm
      hp hparse hnm hlook hval hguard hb]

/-- C6 witness: the timeout envelope and the folded transport error at a
concrete get_post call against the shipped catalog. -/
theorem timeout_explicit_other_transport_folded_witness :
    (create_jsonplaceholder_adapter.handle_request .timeout
      { id := .num 9, method := "tools/call",
        params := some [("name", .vStr "get_post"), ("arguments", mkDict [("id", .vStr "7")])] } =
      .ok (.error (.num 9) INTERNAL_ERROR
            (GatewayExc.message (.toolTimeout "get_post" HTTP_TIMEOUT_SECONDS))
            (some (mkDict [("tool", .vStr "get_post"),
              ("timeout_seconds", .vInt (HTTP_TIMEOUT_SECONDS : Int)),
              ("failure_mode", .vStr "timeout")])),
           { request_id := .num 9, method := "tools/call",
             tool_name := some "get_post",
             arguments := [("id", .vStr "7")], results := [],
             created_at := 0, sealed := true })) ∧
    (create_jsonplaceholder_adapter.handle_request (.httpError "boom")
      { id := .num 9, method := "tools/call",
        params := some [("name", .vStr "get_post"), ("arguments", mkDict [("id", .vStr "7")])] } =
      .ok (.success (.num 9) (ToolCallResult.toValue
            { content := [.text ("HTTP error: " ++ "boom")], isError := true }),
           { request_id := .num 9, method := "tools/call",
             tool_name := some "get_post",
             arguments := [("id", .vStr "7")],
             results := [{ content := [.text ("HTTP error: " ++ "boom")], isError := true }],
             created_at := 0, sealed := true })) := by
  have h := timeout_explicit_other_transport_folded
    create_jsonplaceholder_adapter
    { id := .num 9, method := "tools/call",
      params := some [("name", .vStr "get_post"), ("arguments", mkDict [("id", .vStr "7")])] }
    [("name", .vStr "get_post"), ("arguments", mkDict [("id", .vStr "7")])]
    { name := "get_post", arguments := [("id", .vStr "7")] }
    ep_get_post ⟨(fun _ hh => nomatch hh), by decide⟩ rfl rfl rfl (by decide)
    rfl rfl rfl (by decide)
  exact ⟨h.1, h.2 "boom"⟩

/-- Round trip between association lists and dict-value payloads. -/
lemma VFields_toList_mk (l : List (String × Value)) :
    (mkVFields l).toList = l := by
  induction l with
  | nil => rfl
  | cons kv rest ih =>
    cases kv
    simp [mkVFields, VFields.toList, ih]

/-- A literal tools/call params payload parses to the carried name and
arguments. -/
lemma parse_literal_params (name : String) (f : VFields) :
    parseToolCallParams [("name", .vStr name), ("arguments", .vDict f)] =
      .ok { name := name, arguments := f.toList } := rfl

/-- A well-formed tools/call request carrying a tool name and an
argument dict. -/
def mkToolCallRequest (rid : RequestId) (name : String)
    (args : List (String × Value)) : JsonRpcRequest :=
  { id := rid, method := "tools/call",
    params := some [("name", .vStr name), ("arguments", mkDict args)] }

/-- The `id` argument (with the guard's `""` default) does not parse as
a positive integer. -/
def idNotPositiveInt (args : List (String × Value)) : Prop :=
  ∀ n : Int, pyInt ((dictGet args "id").getD (.vStr "")) = some n → n ≤ 0

/-- The fixed head of both guard rejection messages mentions the word
"rejected". -/
lemma guard_message_mentions_rejected (tail : String) :
    containsSub ("Destructive operation rejected: id=" ++ tail)
      "rejected" = true :=
  containsSub_append_left _ tail _ (by decide)

/-- On a guarded tool name (`delete_post` / `update_post`) whose `id`
argument does not parse as a positive integer, dispatch stops at
validation or at the destructive-operation guard: for every transport
oracle the same `INVALID_PARAMS` envelope comes back (the transport is
never consulted), and when schema validation passed the message is the
guard's explicit rejection. -/
lemma tools_call_guarded_reduction (a : RestToMcpAdapter) (rid : RequestId)
    (name : String) (args : List (String × Value)) (ep : RestEndpoint)
    (hrid : ∀ s, rid = .str s → pyStrip s ≠ "")
    (hnm : pyStrip name ≠ "") (hlook : a.lookup name = some ep)
    (hgname : (name == "delete_post" || name == "update_post") = true)
    (hid : idNotPositiveInt args) :
    ∃ msg dat,
      (∀ o, a.handle_request o (mkToolCallRequest rid name args) =
        .ok (.error rid INVALID_PARAMS msg dat,
             { request_id := rid, method := "tools/call",
               tool_name := some (pyStrip name), arguments := args,
               results := [], created_at := 0, sealed := true })) ∧
      (ep.validate_arguments args = [] → containsSub msg "rejected" = true) := by
  cases hval : ep.validate_arguments args with
  | cons verr verrs =>
    refine ⟨"Tool " ++ pyQuote name ++ " validation failed: " ++
        String.intercalate "; " (verr :: verrs),
      some (mkDict [("tool", .vStr name),
        ("errors", .vList (mkVList ((verr :: verrs).map Value.vStr)))]),
      fun o => ?_, fun hc => absurd hc (List.cons_ne_nil _ _)⟩
    unfold mkToolCallRequest RestToMcpAdapter.handle_request
      RestToMcpAdapter.handle_request_inner RestToMcpAdapter.handle_tools_call
    rw [from_request_ok_of_valid _
      ⟨hrid, show pyStrip "tools/call" ≠ "" by decide⟩]
    dsimp only []
    rw [if_neg (by decide), if_neg (by decide), if_pos (by decide)]
    dsimp only [mkDict]
    simp only [parse_literal_params name (mkVFields args), VFields_toList_mk]
    simp only [with_tool_call_ok
      { request_id := rid, method := "tools/call" } name args rfl rfl hnm]
    simp only [hlook, hval]
    rfl
  | nil =>
    have hspec : ∃ g, RestToMcpAdapter.check_destructive_operation name args =
        some g ∧ containsSub g "rejected" = true := by
      unfold RestToMcpAdapter.check_destructive_operation
      rw [if_pos hgname]
      cases hpi : pyInt ((dictGet args "id").getD (.vStr "")) with
      | some n =>
        simp only [hpi]
        rw [if_pos (hid n hpi)]
        refine ⟨_, rfl, ?_⟩
        rw [String.append_assoc]
        exact guard_message_mentions_rejected _
      | none =>
        simp only [hpi]
        refine ⟨_, rfl, ?_⟩
        rw [String.append_assoc]
        exact guard_message_mentions_rejected _
    obtain ⟨g, hg, hgr⟩ := hspec
    refine ⟨g, some (mkDict [("tool", .vStr name)]), fun o => ?_, fun _ => hgr⟩
    unfold mkToolCallRequest RestToMcpAdapter.handle_request
      RestToMcpAdapter.handle_request_inner RestToMcpAdapter.handle_tools_call
    rw [from_request_ok_of_valid _
      ⟨hrid, show pyStrip "tools/call" ≠ "" by decide⟩]
    dsimp only []
    rw [if_neg (by decide), if_neg (by decide), if_pos (by decide)]
    dsimp only [mkDict]
    simp only [parse_literal_params name (mkVFields args), VFields_toList_mk]
    simp only [with_tool_call_ok
      { request_id := rid, method := "tools/call" } name args rfl rfl hnm]
    simp only [hlook, hval, hg]
    rfl

/-- C5 counterexample: a tools/call naming `update_post` with
`id = "0"` — which does not parse as a positive integer — is answered
with an `INVALID_PARAMS` envelope whose message is the schema-validation
failure (missing body parameters), not an explicit rejection: the
message does not contain "rejected" (the guard's wording, which the spec
scenario requires the message to contain). -/
theorem destructive_guard_counterexample :
    pyInt (Value.vStr "0") = some 0 ∧
    create_jsonplaceholder_adapter.handle_request (.response 200 "x")
      (mkToolCallRequest (.num 1) "update_post" [("id", .vStr "0")]) =
      .ok (.error (.num 1) INVALID_PARAMS
            "Tool \x27update_post\x27 validation failed: Missing required body parameter: \x27title\x27; Missing required body parameter: \x27body\x27; Missing required body parameter: \x27userId\x27"
            (some (mkDict [("tool", .vStr "update_post"),
              ("errors", .vList (mkVList
                [.vStr "Missing required body parameter: \x27title\x27",
                 .vStr "Missing required body parameter: \x27body\x27",
                 .vStr "Missing required body parameter: \x27userId\x27"]))])),
           { request_id := .num 1, method := "tools/call",
             tool_name := some "update_post",
             arguments := [("id", .vStr "0")], results := [],
             created_at := 0, sealed := true }) ∧
    containsSub
      "Tool \x27update_post\x27 validation failed: Missing required body parameter: \x27title\x27; Missing required body parameter: \x27body\x27; Missing required body parameter: \x27userId\x27"
      "rejected" = false :=
  ⟨rfl, rfl, by decide⟩

/-- C5 (amended): for every call-tool request naming `delete_post` or
`update_post` whose `id` argument does not parse as a positive integer,
dispatch returns an `INVALID_PARAMS` error envelope and the transport
client is never invoked (the response is the same for every transport
oracle); the message contains the explicit rejection whenever the
arguments pass the endpoint's schema validation (when validation fails
first, the `INVALID_PARAMS` envelope carries the validation message
instead). -/
theorem destructive_guard_amended (rid : RequestId) (name : String)
    (args : List (String × Value))
    (hrid : ∀ s, rid = .str s → pyStrip s ≠ "")
    (hname : name = "delete_post" ∨ name = "update_post")
    (hid : idNotPositiveInt args) :
    ∃ ep msg dat, create_jsonplaceholder_adapter.lookup name = some ep ∧
      (∀ o, create_jsonplaceholder_adapter.handle_request o
          (mkToolCallRequest rid name args) =
        .ok (.error rid INVALID_PARAMS msg dat,
             { request_id := rid, method := "tools/call",
               tool_name := some (pyStrip name), arguments := args,
               results := [], created_at := 0, sealed := true })) ∧
      (ep.validate_arguments args = [] →
        containsSub msg "rejected" = true) := by
  rcases hname with h | h <;> subst h
  · obtain ⟨msg, dat, hall, himp⟩ := tools_call_guarded_reduction
      create_jsonplaceholder_adapter rid "delete_post" args ep_delete_post
      hrid (by decide) rfl (by decide) hid
    exact ⟨ep_delete_post, msg, dat, rfl, hall, himp⟩
  · obtain ⟨msg, dat, hall, himp⟩ := tools_call_guarded_reduction
      create_jsonplaceholder_adapter rid "update_post" args ep_update_post
      hrid (by decide) rfl (by decide) hid
    exact ⟨ep_update_post, msg, dat, rfl, hall, himp⟩

/-- C5 witness: the amended guard theorem applied to `delete_post` with
the concrete non-positive id `"0"`. -/
theorem destructive_guard_amended_witness :
    ∃ ep msg dat,
      create_jsonplaceholder_adapter.lookup "delete_post" = some ep ∧
      (∀ o, create_jsonplaceholder_adapter.handle_request o
          (mkToolCallRequest (.num 1) "delete_post" [("id", .vStr "0")]) =
        .ok (.error (.num 1) INVALID_PARAMS msg dat,
             { request_id := .num 1, method := "tools/call",
               tool_name := some (pyStrip "delete_post"),
               arguments := [("id", .vStr "0")], results := [],
               created_at := 0, sealed := true })) ∧
      (ep.validate_arguments [("id", .vStr "0")] = [] →
        containsSub msg "rejected" = true) :=
  destructive_guard_amended (.num 1) "delete_post" [("id", .vStr "0")]
    (fun _ h => nomatch h) (Or.inl rfl)
    (by
      intro n h
      rw [show pyInt ((dictGet [("id", Value.vStr "0")] "id").getD
        (.vStr "")) = some 0 from rfl] at h
      simp only [Option.some.injEq] at h
      omega)
